import Mathlib

/-!
Verification of the voice-care-assistant query-routing and retrieval-fallback
pipeline (backend/src/rag.ts, backend/src/orderStub.ts, backend/src/productInfo.ts,
backend/src/vectorStores/pineconeStore.ts, backend/src/vectorStores/faissFallback.ts,
and the Express `/api/query` endpoint).

The TypeScript code is shallowly embedded: external network calls (the Gemini
structured-classification call, the Google embedding call, the Pinecone search,
the Gemini generation call) are modelled by environment records carrying the
outcome each service would produce for the one call the pipeline makes to it;
a thrown JavaScript exception is an `Except.error`; JavaScript strings are Lean
`String`s (code points stand in for UTF-16 units, which agree on all
basic-multilingual-plane text); JavaScript number arithmetic in the order-id
hash is modelled exactly over `Int` (exact for every realistic id length, since
float64 arithmetic is exact below 2^53); `Math.random()` is an explicit oracle
stream supplied by the environment.
-/

namespace VoiceCare

/-! ## JavaScript string primitives -/

/-- Lowercasing of one character as `String.prototype.toLowerCase` does on
ASCII; non-ASCII letters are untouched (the source only ever compares ASCII
keys such as "return", "pro suite"). -/
def jsToLowerChar (c : Char) : Char :=
  if 'A' ≤ c ∧ c ≤ 'Z' then Char.ofNat (c.toNat + 32) else c

/-- Uppercasing of one character as `String.prototype.toUpperCase` does on
ASCII. -/
def jsToUpperChar (c : Char) : Char :=
  if 'a' ≤ c ∧ c ≤ 'z' then Char.ofNat (c.toNat - 32) else c

/-- Model of `s.toLowerCase()`. -/
def jsToLowerCase (s : String) : String := ⟨s.data.map jsToLowerChar⟩

/-- Model of `s.toUpperCase()`. -/
def jsToUpperCase (s : String) : String := ⟨s.data.map jsToUpperChar⟩

/-- Whitespace as recognised by `String.prototype.trim` (ASCII part). -/
def isJsWhitespace (c : Char) : Bool :=
  c == ' ' || c == '\t' || c == '\n' || c == '\r' || c == '\x0b' || c == '\x0c'

/-- Model of `s.trim()`: strip leading and trailing whitespace. -/
def jsTrim (s : String) : String :=
  ⟨((s.data.dropWhile isJsWhitespace).reverse.dropWhile isJsWhitespace).reverse⟩

/-- Boolean prefix test on character lists. -/
def listIsPrefixOf : List Char → List Char → Bool
  | [], _ => true
  | _ :: _, [] => false
  | a :: as, b :: bs => a == b && listIsPrefixOf as bs

/-- Boolean contiguous-sublist test on character lists. -/
def listIsInfixOf (sub l : List Char) : Bool :=
  listIsPrefixOf sub l ||
    (match l with
     | [] => false
     | _ :: t => listIsInfixOf sub t)

/-- Model of `s.includes(sub)`. -/
def jsIncludes (s sub : String) : Bool := listIsInfixOf sub.data s.data

/-- ECMAScript ToInt32: reduce an (exact) number to a signed 32-bit value. -/
def toInt32 (n : Int) : Int := (n + 2 ^ 31) % 2 ^ 32 - 2 ^ 31

/-! ## Data model (rag.ts / server types) -/

/-- The `BotResponse.intent` union type of rag.ts. -/
inductive Intent
  | General
  | RAG
  | Order_Status
  | Product_Info
deriving DecidableEq, Repr

/-- The `BotResponse` record of rag.ts. -/
structure BotResponse where
  answer : String
  intent : Intent
deriving DecidableEq, Repr

/-- A thrown JavaScript error, as far as the pipeline inspects one: an
optional numeric `status` field and an optional `message` string. -/
structure JsError where
  status : Option Int
  message : Option String
deriving DecidableEq, Repr

/-! ## orderStub.ts -/

/-- The `status` union of the `MockOrderStatus` interface. -/
inductive OrderStatusKind
  | Processing
  | Shipped
  | Delivered
  | Cancelled
deriving DecidableEq, Repr

/-- Display string of an order status, as interpolated into the message. -/
def OrderStatusKind.label : OrderStatusKind → String
  | .Processing => "Processing"
  | .Shipped => "Shipped"
  | .Delivered => "Delivered"
  | .Cancelled => "Cancelled"

/-- The `MockOrderStatus` interface of orderStub.ts. -/
structure MockOrderStatus where
  status : OrderStatusKind
  trackingNumber : String
  deliveryDate : String
deriving DecidableEq, Repr

/-- One step of the loop `hash = orderId.charCodeAt(i) + ((hash << 5) - hash)`:
the shift coerces through ToInt32 (and wraps in 32 bits), the subtraction and
addition are exact number arithmetic. -/
def jsHashStep (hash : Int) (code : Nat) : Int :=
  (code : Int) + (toInt32 (toInt32 hash * 32) - hash)

/-- The character-code hash loop of `getOrderStatus`. -/
def jsHash (s : String) : Int :=
  s.data.foldl (fun h c => jsHashStep h c.toNat) 0

/-- The `defaultOrder` constant of `getOrderStatus`. -/
def defaultOrder : MockOrderStatus :=
  { status := .Processing, trackingNumber := "N/A", deliveryDate := "Unknown" }

/-- The `statusData` selection in `getOrderStatus`: JavaScript `%` is the
remainder with the sign of the dividend (`Int.tmod`), so the hit tests
`hash % 3 === 0` / `=== 1` send every other remainder (2, -1, -2) to the
Delivered branch. `Math.abs(hash).toString().substring(0, 7)` is the first
seven decimal digits of the absolute hash. -/
def orderStatusData (orderId : String) : MockOrderStatus :=
  let hash := jsHash orderId
  if Int.tmod hash 3 = 0 then
    { status := .Shipped
      trackingNumber := "TRK" ++ (toString hash.natAbs).take 7
      deliveryDate := "October 5th" }
  else if Int.tmod hash 3 = 1 then
    defaultOrder
  else
    { status := .Delivered, trackingNumber := "N/A", deliveryDate := "September 28th" }

/-- The `getOrderStatus` function of orderStub.ts. -/
def getOrderStatus (orderId : String) : String :=
  let sd := orderStatusData orderId
  let message :=
    "The status for your order **" ++ jsToUpperCase orderId ++
      "** is currently **" ++ sd.status.label ++ "**."
  match sd.status with
  | .Shipped =>
      message ++ " It is expected to arrive on " ++ sd.deliveryDate ++
        ". Your tracking number is " ++ sd.trackingNumber ++ "."
  | .Delivered =>
      message ++ " It was successfully delivered on " ++ sd.deliveryDate ++ "."
  | .Processing =>
      message ++ " We are still preparing your item for shipment. We will notify you when it ships."
  | .Cancelled => message

/-! ## productInfo.ts -/

/-- The `ProductDetails` interface. -/
structure ProductDetails where
  name : String
  details : String
  availability : String
deriving DecidableEq, Repr

/-- The static `productData` catalog, in `Object.keys` insertion order. -/
def productData : List (String × ProductDetails) :=
  [("pro suite",
    { name := "Apex Pro Suite"
      details := "The Apex Pro Suite is our premium offering, featuring real-time data analytics, unlimited cloud storage, and priority 24/7 technical support. It is currently available for purchase with a 15% introductory discount."
      availability := "In Stock" }),
   ("basic plan",
    { name := "Apex Basic Plan"
      details := "The Basic Plan provides essential features, including 10GB of cloud storage and community-level support. It\x27s a great starting point for individual users."
      availability := "Always Available" }),
   ("monitor x",
    { name := "Monitor X"
      details := "Monitor X is a 32-inch 4K curved display with a 144Hz refresh rate and built-in eye-care technology. Comes with a 2-year warranty."
      availability := "Low Stock - Next shipment in 3 days." })]

/-- The key selected by `productKeys.find(key => normalizedName.includes(key)
|| key.includes(normalizedName))` after the `toLowerCase().trim()`
normalisation. -/
def productKeyOf (productName : String) : Option String :=
  (productData.find? fun kv =>
      jsIncludes (jsTrim (jsToLowerCase productName)) kv.1 ||
        jsIncludes kv.1 (jsTrim (jsToLowerCase productName))).map Prod.fst

/-- The `getProductInfo` function of productInfo.ts. -/
def getProductInfo (productName : String) : String :=
  let normalizedName := jsTrim (jsToLowerCase productName)
  match productData.find? (fun kv =>
      jsIncludes normalizedName kv.1 || jsIncludes kv.1 normalizedName) with
  | some kv =>
      kv.2.name ++ " details: " ++ kv.2.details ++ " Current Availability: " ++
        kv.2.availability
  | none =>
      "I\x27m sorry, I couldn\x27t find specific details for a product named \"" ++
        productName ++
        "\". Could you please check the spelling or ask about \x27Pro Suite\x27, \x27Basic Plan\x27, or \x27Monitor X\x27?"

/-! ## pineconeStore.ts: embedding adapter with quota fallback -/

/-- The `EMBEDDING_DIMENSION` constant (dimension of embedding-001). -/
def EMBEDDING_DIMENSION : Nat := 768

/-- One synthetic vector: `Array.from({length: 768}, () => Math.random() - 0.5)`
with the `Math.random()` draws supplied by the oracle `rand`. -/
def mockVector (rand : Nat → Rat) : List Rat :=
  (List.range EMBEDDING_DIMENSION).map fun i => rand i - 1 / 2

/-- The quota test of the catch block:
`error.status === 429 || error.message?.includes("Quota exceeded")`. -/
def isQuotaSignal (e : JsError) : Bool :=
  e.status == some 429 ||
    (match e.message with
     | some m => jsIncludes m "Quota exceeded"
     | none => false)

/-- The error thrown when the provider returns no embedding values. -/
def emptyEmbeddingError : JsError :=
  { status := none
    message := some "Google Embedding API returned an empty result or missing embedding values." }

/-- Environment for one call to the embedding provider: the outcome of
`ai.models.embedContent` (`Except.ok none` models a response whose
`embeddings?.[0]?.values` chain is undefined), and this call\x27s
`Math.random()` stream. -/
structure EmbedCallEnv where
  providerOutcome : Except JsError (Option (List Rat))
  rand : Nat → Rat

/-- The `generateGoogleEmbedding` function of pineconeStore.ts, with the
module-level `useMockEmbedding` flag threaded explicitly: the result pairs
the returned (or thrown) value with the flag\x27s new value. -/
def generateGoogleEmbedding (text : String) (useMockEmbedding : Bool)
    (call : EmbedCallEnv) : Except JsError (List Rat) × Bool :=
  if useMockEmbedding then
    (Except.ok (mockVector call.rand), useMockEmbedding)
  else
    let attempt : Except JsError (List Rat) :=
      match call.providerOutcome with
      | Except.ok (some values) => Except.ok values
      | Except.ok none => Except.error emptyEmbeddingError
      | Except.error e => Except.error e
    match attempt with
    | Except.ok values => (Except.ok values, useMockEmbedding)
    | Except.error e =>
      if isQuotaSignal e then (Except.ok (mockVector call.rand), true)
      else (Except.error e, useMockEmbedding)

/-- The `useMockEmbedding` flag after a sequence of embedding calls, each a
pair of input text and call environment. -/
def embedRun (useMockEmbedding : Bool) (calls : List (String × EmbedCallEnv)) : Bool :=
  calls.foldl (fun b tc => (generateGoogleEmbedding tc.1 b tc.2).2) useMockEmbedding

/-! ## pineconeStore.ts: RAG retrieval and context selection -/

/-- One Pinecone match as the pipeline reads it (`match.metadata!`). -/
structure PineconeMatch where
  answer : String
  doc_id : String
deriving DecidableEq, Repr

/-- The context-string format `Context: ${answer} (Source: ${doc_id} doc)`. -/
def formatChunk (answer doc_id : String) : String :=
  "Context: " ++ answer ++ " (Source: " ++ doc_id ++ " doc)"

/-- The context-selection block of `queryPinecone`: map matches to
(answer, doc_id) pairs, filter (keep a record iff it is the "Returns Policy"
document and the query mentions "return", or the query does not mention
"return" at all), take the top 3, format; then, if that is empty and the
query does not mention "return", fall back to the unfiltered top 3. -/
def contextChunksOf (query : String) (searchMatches : List PineconeMatch) : List String :=
  let isReturnQuery := jsIncludes (jsToLowerCase query) "return"
  let contextChunks :=
    ((((searchMatches.map fun m => (m.answer, m.doc_id)).filter fun r =>
        (r.2 == "Returns Policy" && isReturnQuery) || !isReturnQuery).take 3).map
      fun r => formatChunk r.1 r.2)
  if contextChunks.length == 0 && !isReturnQuery then
    (searchMatches.take 3).map fun m => formatChunk m.answer m.doc_id
  else
    contextChunks

/-- The canned answer for zero context chunks. -/
def NO_MATCH_MSG : String :=
  "No strong matches were found for your query in the knowledge base."

/-- The error thrown when the generation call returns no text. -/
def emptyGenerationError : JsError :=
  { status := none, message := some "Gemini API failed to generate text content." }

/-! ## rag.ts: intent classification -/

/-- Outcome of the structured intent-classification call in `determineIntent`,
as far as the code inspects it: the call can throw, return falsy text
(`!jsonText`), return text `JSON.parse` rejects, or return text parsing to an
object whose `intent`, `details` and `orderId` fields are each either a string
or absent. -/
inductive IntentCallOutcome
  | throwErr (e : JsError)
  | noText
  | parseFail
  | parsed (intent : Option String) (details : Option String) (orderId : Option String)

/-- What `determineIntent` resolves to: `result.intent` read off the parsed
JSON (absent if the field is missing) and the extracted details string. -/
structure IntentResult where
  intent : Option String
  details : String
deriving DecidableEq, Repr

/-- JavaScript `x || y` on an optional string and a string default: a missing
or empty (falsy) string falls through to the default. -/
def jsOrElse (x : Option String) (y : String) : String :=
  match x with
  | some s => if s = "" then y else s
  | none => y

/-- The extraction `result.details || result.orderId || ''`. -/
def extractDetails (details orderId : Option String) : String :=
  jsOrElse details (jsOrElse orderId "")

/-- The `determineIntent` function of rag.ts: on a successful parse it returns
`result.intent` (possibly missing) and the extracted details; every thrown
error — a failed call, missing text, or a parse failure — is caught and
defaulted to intent RAG with empty details. -/
def determineIntent (call : IntentCallOutcome) : IntentResult :=
  match call with
  | .parsed intent details orderId =>
      { intent := intent, details := extractDetails details orderId }
  | _ => { intent := some "RAG", details := "" }

/-- Environment for one full pass of the RAG pipeline plus the intent call:
outcomes of each external service for the single call the pipeline makes to
it, and the state of the module-level `useMockEmbedding` flag on entry. -/
structure QueryEnv where
  intentCall : IntentCallOutcome
  embedCall : EmbedCallEnv
  searchOutcome : Except JsError (List PineconeMatch)
  genOutcome : Except JsError (Option String)
  useMockEmbedding : Bool

/-- The `queryPinecone` function of pineconeStore.ts: embed the query, search,
select context, and either return the canned no-match message or generate a
grounded answer; any thrown error is re-thrown to the caller. The second
component is the `useMockEmbedding` flag after the embedding call. -/
def queryPinecone (env : QueryEnv) (query : String) :
    Except JsError (List String) × Bool :=
  let emb := generateGoogleEmbedding query env.useMockEmbedding env.embedCall
  let result : Except JsError (List String) :=
    match emb.1 with
    | Except.error e => Except.error e
    | Except.ok _ =>
      match env.searchOutcome with
      | Except.error e => Except.error e
      | Except.ok searchMatches =>
        let contextChunks := contextChunksOf query searchMatches
        if contextChunks.length = 0 then
          Except.ok [NO_MATCH_MSG]
        else
          match env.genOutcome with
          | Except.error e => Except.error e
          | Except.ok none => Except.error emptyGenerationError
          | Except.ok (some t) =>
            if t = "" then Except.error emptyGenerationError
            else Except.ok [jsTrim t]
  (result, emb.2)

/-! ## faissFallback.ts -/

/-- The `queryFaissFallback` function of faissFallback.ts. It is exported but
never imported or called anywhere in the repository. -/
def queryFaissFallback (query : String) : List String :=
  let errorDetails := "I encountered a high-traffic issue with my main knowledge base server."
  let helpfulMessage := "I can still provide some basic guidance, but for detailed policy information, please check our help page."
  let fallbackContext :=
    errorDetails ++ " " ++ helpfulMessage ++
      " (Source: Local FAISS Fallback for query: " ++ query ++ ")."
  [fallbackContext]

/-! ## rag.ts: the query router -/

/-- The generic apology returned by the outermost catch of `processQuery`. -/
def GENERIC_APOLOGY_MSG : String :=
  "An unexpected error occurred while processing your request. Please try again later."

/-- The clarification request of the final else branch of `processQuery`. -/
def CLARIFICATION_MSG : String :=
  "I\x27m sorry, I couldn\x27t understand your request. Could you please rephrase it?"

/-- The body of the try block of `processQuery`: classify, then branch.
`(details && details !== \x27None\x27)` is the JavaScript truthiness test, so a
non-sentinel detail is one that is neither empty nor the string "None"; an
error thrown by `queryPinecone` propagates out of the try block. -/
def processQueryAux (env : QueryEnv) (query : String) : Except JsError BotResponse :=
  let r := determineIntent env.intentCall
  if r.intent == some "Order_Status" && (r.details != "" && r.details != "None") then
    Except.ok { answer := getOrderStatus r.details, intent := Intent.Order_Status }
  else if r.intent == some "Product_Info" && r.details != "General" then
    let productIdentifier :=
      if r.details != "" && r.details != "None" then r.details else query
    Except.ok { answer := getProductInfo productIdentifier, intent := Intent.Product_Info }
  else if r.intent == some "RAG" || r.intent == some "Order_Status" ||
      r.intent == some "Product_Info" then
    match (queryPinecone env query).1 with
    | Except.error e => Except.error e
    | Except.ok ragAnswer =>
        Except.ok { answer := ragAnswer.headD "", intent := Intent.RAG }
  else
    Except.ok { answer := CLARIFICATION_MSG, intent := Intent.General }

/-- The `processQuery` function of rag.ts: the try block, with the outermost
catch turning any thrown error into the generic apology with intent General. -/
def processQuery (env : QueryEnv) (query : String) : BotResponse :=
  match processQueryAux env query with
  | Except.ok b => b
  | Except.error _ => { answer := GENERIC_APOLOGY_MSG, intent := Intent.General }

/-! ## The Express `/api/query` endpoint -/

/-- A JSON value read off `req.body.query`, as far as the endpoint inspects
it: `undefined` models an absent field. -/
inductive JsValue
  | undefined
  | null
  | bool (b : Bool)
  | num (n : Int)
  | str (s : String)
  | obj
  | arr
deriving DecidableEq, Repr

/-- JavaScript truthiness of a `JsValue`. -/
def jsTruthy : JsValue → Bool
  | .undefined => false
  | .null => false
  | .bool b => b
  | .num n => n != 0
  | .str s => s != ""
  | .obj => true
  | .arr => true

/-- The `typeof query === \x27string\x27` test. -/
def jsIsString : JsValue → Bool
  | .str _ => true
  | _ => false

/-- The string payload of a `JsValue`; only consulted on the branch where the
value is known to be a string. -/
def jsAsString : JsValue → String
  | .str s => s
  | _ => ""

/-- An HTTP response from the endpoint. `processQuery` never throws (claim
C2), so the 500 branch of the handler\x27s try/catch is unreachable and the
handler either rejects the body or returns the router\x27s response. -/
inductive HttpResponse
  | status400 (error : String)
  | status500 (error : String)
  | ok (body : BotResponse)
deriving DecidableEq, Repr

/-- The `app.post(\x27/api/query\x27)` handler: reject with 400 when
`!query || typeof query !== \x27string\x27`, otherwise process the query. -/
def postApiQuery (env : QueryEnv) (queryField : JsValue) : HttpResponse :=
  if !jsTruthy queryField || !jsIsString queryField then
    HttpResponse.status400 "Query parameter is required."
  else
    HttpResponse.ok (processQuery env (jsAsString queryField))

/-! ## Shared helper lemmas -/

/-- A string with positive length is not the empty string. -/
lemma ne_empty_of_length_pos (s : String) (h : 0 < s.length) : s ≠ "" := by
  intro hc
  rw [hc] at h
  exact absurd h (by decide)

/-- Every branch of `getOrderStatus` starts with a fixed nonempty literal. -/
lemma getOrderStatus_ne_empty (orderId : String) : getOrderStatus orderId ≠ "" := by
  apply ne_empty_of_length_pos
  have h0 : 0 < ("The status for your order **" : String).length := by decide
  unfold getOrderStatus
  cases hs : (orderStatusData orderId).status <;>
    simp only [hs, String.length_append] <;> omega

/-- Both branches of `getProductInfo` contain a fixed nonempty literal. -/
lemma getProductInfo_ne_empty (productName : String) : getProductInfo productName ≠ "" := by
  apply ne_empty_of_length_pos
  have h1 : 0 < (" details: " : String).length := by decide
  have h2 : 0 < ("I\x27m sorry, I couldn\x27t find specific details for a product named \"" : String).length := by decide
  unfold getProductInfo
  cases hf : productData.find? (fun kv =>
      jsIncludes (jsTrim (jsToLowerCase productName)) kv.1 ||
        jsIncludes kv.1 (jsTrim (jsToLowerCase productName))) <;>
    simp only [hf, String.length_append] <;> omega

/-- Shape of a successful `queryPinecone` result: either the canned no-match
message, or the trimmed nonempty text of the generation call. -/
lemma queryPinecone_ok_shape (env : QueryEnv) (query : String) (l : List String)
    (h : (queryPinecone env query).1 = Except.ok l) :
    l = [NO_MATCH_MSG] ∨
      ∃ t, env.genOutcome = Except.ok (some t) ∧ t ≠ "" ∧ l = [jsTrim t] := by
  unfold queryPinecone at h
  simp only at h
  split at h
  · exact absurd h (by simp)
  · split at h
    · exact absurd h (by simp)
    · split at h
      · left
        cases h
        rfl
      · split at h
        · exact absurd h (by simp)
        · exact absurd h (by simp)
        · rename_i t heq
          split at h
          · exact absurd h (by simp)
          · right
            refine ⟨t, heq, by assumption, ?_⟩
            cases h
            rfl

/-- The degradation flag can only be set by one embedding call, never
cleared. -/
lemma generateGoogleEmbedding_flag_true (text : String) (call : EmbedCallEnv) :
    generateGoogleEmbedding text true call = (Except.ok (mockVector call.rand), true) := rfl

/-! ## Claim C7 -/

/-- C7: `getOrderStatus` is a pure deterministic function of the order id —
repeated calls with the same id return the identical message — and the status
is derived by hashing the id\x27s characters: hash mod 3 maps to Shipped
(remainder 0, with a tracking number "TRK" plus the first seven decimal digits
of the absolute hash), Processing (remainder 1, the default order), or
Delivered (every other remainder); the Cancelled variant is unreachable. -/
theorem c7_order_status_deterministic (orderId : String) :
    getOrderStatus orderId = getOrderStatus orderId ∧
    ((orderStatusData orderId).status = OrderStatusKind.Shipped ∨
      (orderStatusData orderId).status = OrderStatusKind.Processing ∨
      (orderStatusData orderId).status = OrderStatusKind.Delivered) ∧
    (Int.tmod (jsHash orderId) 3 = 0 →
      orderStatusData orderId =
        { status := OrderStatusKind.Shipped
          trackingNumber := "TRK" ++ (toString (jsHash orderId).natAbs).take 7
          deliveryDate := "October 5th" }) ∧
    (Int.tmod (jsHash orderId) 3 = 1 → orderStatusData orderId = defaultOrder) ∧
    (Int.tmod (jsHash orderId) 3 ≠ 0 → Int.tmod (jsHash orderId) 3 ≠ 1 →
      orderStatusData orderId =
        { status := OrderStatusKind.Delivered
          trackingNumber := "N/A"
          deliveryDate := "September 28th" }) := by
  refine ⟨rfl, ?_, ?_, ?_, ?_⟩
  · by_cases h0 : Int.tmod (jsHash orderId) 3 = 0
    · simp [orderStatusData, h0]
    · by_cases h1 : Int.tmod (jsHash orderId) 3 = 1
      · simp [orderStatusData, h0, h1, defaultOrder]
      · simp [orderStatusData, h0, h1]
  · intro h
    simp [orderStatusData, h]
  · intro h
    simp [orderStatusData, h]
  · intro h0 h1
    simp [orderStatusData, h0, h1]

/-- Witness for C7 at the concrete order id "A" (hash 65, remainder 2). -/
theorem c7_order_status_deterministic_witness :
    orderStatusData "A" =
      { status := OrderStatusKind.Delivered
        trackingNumber := "N/A"
        deliveryDate := "September 28th" } :=
  (c7_order_status_deterministic "A").2.2.2.2 (by decide) (by decide)

/-! ## Claim C1 -/

set_option maxRecDepth 8000 in
/-- C1 (code bug): when the vector-store search throws during a RAG-routed
query, `processQuery` returns the generic apology with intent General. The
Fallback Retriever `queryFaissFallback` is never invoked — it is exported but
unreferenced in the repository — and the returned answer does not contain the
fallback-source marker that the fallback context would carry. -/
theorem c1_fallback_retriever_never_invoked :
    processQuery
      { intentCall := IntentCallOutcome.parsed (some "RAG") (some "") none
        embedCall := { providerOutcome := Except.ok (some [1]), rand := fun _ => 0 }
        searchOutcome := Except.error { status := none, message := some "PineconeConnectionError" }
        genOutcome := Except.ok (some "ignored")
        useMockEmbedding := false }
      "What is your return policy?" =
      { answer := GENERIC_APOLOGY_MSG, intent := Intent.General } ∧
    jsIncludes GENERIC_APOLOGY_MSG "Local FAISS Fallback" = false ∧
    jsIncludes ((queryFaissFallback "What is your return policy?").headD "")
      "Local FAISS Fallback" = true := by
  refine ⟨?_, ?_, ?_⟩ <;> decide

/-! ## Claim C2 -/

/-- C2: the query router never raises — for every environment and query,
either the try block of `processQuery` succeeds and its response is returned,
or it throws and `processQuery` degrades the error to the generic apology
with intent General. -/
theorem c2_router_never_raises (env : QueryEnv) (query : String) :
    (∃ b, processQueryAux env query = Except.ok b ∧ processQuery env query = b) ∨
    (∃ e, processQueryAux env query = Except.error e ∧
      processQuery env query =
        { answer := GENERIC_APOLOGY_MSG, intent := Intent.General }) := by
  cases h : processQueryAux env query with
  | ok b => exact Or.inl ⟨b, rfl, by simp [processQuery, h]⟩
  | error e => exact Or.inr ⟨e, rfl, by simp [processQuery, h]⟩

/-! ## Claim C4 -/

/-- C4 counterexample: a structured result that parses to JSON lacking the
intent field does not fail open to intent RAG with empty details —
`determineIntent` passes the missing intent through unchanged, together with
the extracted details. -/
theorem c4_counterexample :
    determineIntent (IntentCallOutcome.parsed none (some "ABC12") none) ≠
      { intent := some "RAG", details := "" } ∧
    determineIntent (IntentCallOutcome.parsed none (some "ABC12") none) =
      { intent := none, details := "ABC12" } := by
  decide

/-- C4 amended: if the structured classification call raises, returns no
text, or returns text that fails to parse, classification fails open to
intent RAG with empty details; if the JSON parses but the intent field is
missing, `determineIntent` returns the missing intent as-is, and the router
then answers with the General clarification request — in no case is the
classification error surfaced to the user as an error. -/
theorem c4_classification_fail_open :
    (∀ e, determineIntent (IntentCallOutcome.throwErr e) =
      { intent := some "RAG", details := "" }) ∧
    (determineIntent IntentCallOutcome.noText = { intent := some "RAG", details := "" }) ∧
    (determineIntent IntentCallOutcome.parseFail = { intent := some "RAG", details := "" }) ∧
    (∀ d o, determineIntent (IntentCallOutcome.parsed none d o) =
      { intent := none, details := extractDetails d o }) ∧
    (∀ env query d o, env.intentCall = IntentCallOutcome.parsed none d o →
      processQuery env query = { answer := CLARIFICATION_MSG, intent := Intent.General }) := by
  refine ⟨fun e => rfl, rfl, rfl, fun d o => rfl, ?_⟩
  intro env query d o h
  simp [processQuery, processQueryAux, determineIntent, h]

/-- Witness for C4 at a concrete parsed result with a missing intent field. -/
theorem c4_classification_fail_open_witness :
    processQuery
      { intentCall := IntentCallOutcome.parsed none (some "ABC99") none
        embedCall := { providerOutcome := Except.ok (some [1]), rand := fun _ => 0 }
        searchOutcome := Except.ok []
        genOutcome := Except.ok none
        useMockEmbedding := false }
      "where is my order?" =
      { answer := CLARIFICATION_MSG, intent := Intent.General } :=
  c4_classification_fail_open.2.2.2.2
    { intentCall := IntentCallOutcome.parsed none (some "ABC99") none
      embedCall := { providerOutcome := Except.ok (some [1]), rand := fun _ => 0 }
      searchOutcome := Except.ok []
      genOutcome := Except.ok none
      useMockEmbedding := false }
    "where is my order?" (some "ABC99") none rfl

/-! ## Claim C3 -/

/-- C3: one quota-exhaustion signal (status 429 or a message containing
"Quota exceeded") answers the triggering call with a synthetic vector and
sets the degradation flag; with the flag set, every call returns the
freshly randomized vector drawn from that call\x27s `Math.random()` stream —
of dimension 768, independent of the input text and of the provider — and
the flag is never reset over any run of subsequent calls. -/
theorem c3_quota_degradation :
    (∀ text call e, call.providerOutcome = Except.error e → isQuotaSignal e = true →
      generateGoogleEmbedding text false call = (Except.ok (mockVector call.rand), true)) ∧
    (∀ text call, generateGoogleEmbedding text true call =
      (Except.ok (mockVector call.rand), true)) ∧
    (∀ rand, (mockVector rand).length = EMBEDDING_DIMENSION) ∧
    (∀ calls, embedRun true calls = true) := by
  refine ⟨?_, fun text call => generateGoogleEmbedding_flag_true text call, ?_, ?_⟩
  · intro text call e hp hq
    simp [generateGoogleEmbedding, hp, hq]
  · intro rand
    simp [mockVector]
  · intro calls
    induction calls with
    | nil => rfl
    | cons c cs ih => simpa [embedRun, generateGoogleEmbedding] using ih

/-- Witness for C3 at a concrete 429 response. -/
theorem c3_quota_degradation_witness :
    generateGoogleEmbedding "hello" false
      { providerOutcome := Except.error { status := some 429, message := none }
        rand := fun _ => 0 } =
      (Except.ok (mockVector (fun _ => 0)), true) :=
  c3_quota_degradation.1 "hello"
    { providerOutcome := Except.error { status := some 429, message := none }
      rand := fun _ => 0 }
    { status := some 429, message := none } rfl rfl

/-! ## Claim C5 -/

set_option maxRecDepth 8000 in
/-- C5 counterexample: the Context Selector can produce zero chunks from a
nonempty match list — a query mentioning "return" whose matches contain no
"Returns Policy" document is filtered to nothing and the unfiltered-top-3
fallback is skipped. -/
theorem c5_counterexample :
    contextChunksOf "Can I return this item?"
      [{ answer := "You can track your order online.", doc_id := "Shipping FAQ" }] = [] ∧
    ([{ answer := "You can track your order online.", doc_id := "Shipping FAQ" }] :
      List PineconeMatch) ≠ [] := by
  decide

/-- C5 amended: the Context Selector produces at most 3 chunks, and produces
0 chunks exactly when the search returned 0 matches or the query mentions
"return" (case-insensitively) while no match carries doc_id "Returns
Policy"; in every zero-chunk case with a successful embedding and search the
pipeline returns the single canned no-match string, independent of the
Generation Adapter\x27s outcome. -/
theorem c5_context_selector :
    (∀ query searchMatches, (contextChunksOf query searchMatches).length ≤ 3) ∧
    (∀ query searchMatches, contextChunksOf query searchMatches = [] ↔
      (searchMatches = [] ∨
        (jsIncludes (jsToLowerCase query) "return" = true ∧
          ∀ m ∈ searchMatches, m.doc_id ≠ "Returns Policy"))) ∧
    (∀ env query searchMatches,
      env.searchOutcome = Except.ok searchMatches →
      contextChunksOf query searchMatches = [] →
      (generateGoogleEmbedding query env.useMockEmbedding env.embedCall).1.isOk = true →
      (queryPinecone env query).1 = Except.ok [NO_MATCH_MSG]) := by
  refine ⟨?_, ?_, ?_⟩
  · intro query searchMatches
    simp only [contextChunksOf]
    split
    · simp [List.length_take]
    · simp [List.length_take]
  · intro query searchMatches
    simp only [contextChunksOf]
    cases hR : jsIncludes (jsToLowerCase query) "return"
    · by_cases hms : searchMatches = []
      · subst hms
        simp
      · simp [hms, List.map_eq_nil_iff, List.take_eq_nil_iff]
    · simp [List.map_eq_nil_iff, List.take_eq_nil_iff, List.filter_eq_nil_iff]
      rintro rfl
      simp
  · intro env query searchMatches hs hchunks hemb
    rcases hE : (generateGoogleEmbedding query env.useMockEmbedding env.embedCall).1 with e | v
    · rw [hE] at hemb
      simp [Except.isOk, Except.toBool] at hemb
    · simp [queryPinecone, hE, hs, hchunks]

/-- Witness for C5: with one non-Returns-Policy match and a "return" query,
the pipeline returns the canned no-match answer. -/
theorem c5_context_selector_witness :
    (queryPinecone
      { intentCall := IntentCallOutcome.parsed (some "RAG") none none
        embedCall := { providerOutcome := Except.ok (some [1]), rand := fun _ => 0 }
        searchOutcome := Except.ok
          [{ answer := "You can track your order online.", doc_id := "Shipping FAQ" }]
        genOutcome := Except.error { status := none, message := some "never called" }
        useMockEmbedding := false }
      "Can I return this item?").1 = Except.ok [NO_MATCH_MSG] :=
  c5_context_selector.2.2
    { intentCall := IntentCallOutcome.parsed (some "RAG") none none
      embedCall := { providerOutcome := Except.ok (some [1]), rand := fun _ => 0 }
      searchOutcome := Except.ok
        [{ answer := "You can track your order online.", doc_id := "Shipping FAQ" }]
      genOutcome := Except.error { status := none, message := some "never called" }
      useMockEmbedding := false }
    "Can I return this item?"
    [{ answer := "You can track your order online.", doc_id := "Shipping FAQ" }]
    rfl (by decide) rfl

/-! ## Claim C6 -/

set_option maxRecDepth 8000 in
/-- C6 counterexample: when the generation call returns whitespace-only text,
the RAG answer is trimmed to the empty string, so `processQuery` returns an
empty answer. -/
theorem c6_counterexample :
    processQuery
      { intentCall := IntentCallOutcome.parsed (some "RAG") none none
        embedCall := { providerOutcome := Except.ok (some [1]), rand := fun _ => 0 }
        searchOutcome := Except.ok [{ answer := "Our hours are 9am to 5pm.", doc_id := "Hours FAQ" }]
        genOutcome := Except.ok (some " ")
        useMockEmbedding := false }
      "hello" = { answer := "", intent := Intent.RAG } := by
  decide

/-- Exhaustive shape of the try-block result: an order-status answer, a
product-info answer, a propagated error, a RAG answer read off
`queryPinecone`, or the clarification request. -/
lemma processQueryAux_shape (env : QueryEnv) (query : String) :
    (∃ d, processQueryAux env query =
        Except.ok { answer := getOrderStatus d, intent := Intent.Order_Status }) ∨
    (∃ p, processQueryAux env query =
        Except.ok { answer := getProductInfo p, intent := Intent.Product_Info }) ∨
    (∃ e, processQueryAux env query = Except.error e) ∨
    (∃ l, (queryPinecone env query).1 = Except.ok l ∧
        processQueryAux env query = Except.ok { answer := l.headD "", intent := Intent.RAG }) ∨
    processQueryAux env query =
      Except.ok { answer := CLARIFICATION_MSG, intent := Intent.General } := by
  simp only [processQueryAux]
  split
  · exact Or.inl ⟨_, rfl⟩
  · split
    · exact Or.inr (Or.inl ⟨_, rfl⟩)
    · split
      · cases hq : (queryPinecone env query).1 with
        | error e => exact Or.inr (Or.inr (Or.inl ⟨e, by simp [hq]⟩))
        | ok l => exact Or.inr (Or.inr (Or.inr (Or.inl ⟨l, rfl, by simp⟩)))
      · exact Or.inr (Or.inr (Or.inr (Or.inr rfl)))

/-- C6 amended: every response\x27s intent is one of the four enumerated
values, and the answer can be empty only when the generation call returned
nonempty text that trims to the empty string (whitespace-only text); every
other answer source is nonempty. -/
theorem c6_response_shape (env : QueryEnv) (query : String) :
    ((processQuery env query).intent = Intent.General ∨
      (processQuery env query).intent = Intent.RAG ∨
      (processQuery env query).intent = Intent.Order_Status ∨
      (processQuery env query).intent = Intent.Product_Info) ∧
    ((processQuery env query).answer = "" →
      ∃ t, env.genOutcome = Except.ok (some t) ∧ t ≠ "" ∧ jsTrim t = "") := by
  constructor
  · cases h : (processQuery env query).intent <;> simp
  · intro h
    rcases haux : processQueryAux env query with e | b
    · have hpq : processQuery env query =
          { answer := GENERIC_APOLOGY_MSG, intent := Intent.General } := by
        simp [processQuery, haux]
      rw [hpq] at h
      exact absurd h (by decide)
    · have hpq : processQuery env query = b := by simp [processQuery, haux]
      rw [hpq] at h
      rcases processQueryAux_shape env query with ⟨d, hd⟩ | ⟨p, hp⟩ | ⟨e, he⟩ | ⟨l, hql, hr⟩ | hc
      · rw [haux] at hd
        injection hd with hb
        subst hb
        exact absurd h (getOrderStatus_ne_empty d)
      · rw [haux] at hp
        injection hp with hb
        subst hb
        exact absurd h (getProductInfo_ne_empty p)
      · rw [haux] at he
        simp at he
      · rw [haux] at hr
        injection hr with hb
        subst hb
        rcases queryPinecone_ok_shape env query l hql with hcanned | ⟨t, hg, ht, rfl⟩
        · subst hcanned
          exact absurd h (by decide)
        · exact ⟨t, hg, ht, by simpa using h⟩
      · rw [haux] at hc
        injection hc with hb
        subst hb
        exact absurd h (by decide)

/-- Witness for C6: a whitespace-only generation result yields the empty
answer, and the theorem traces it back to that generation text. -/
theorem c6_response_shape_witness :
    ∃ t,
      ({ intentCall := IntentCallOutcome.parsed (some "RAG") none none
         embedCall := { providerOutcome := Except.ok (some [1]), rand := fun _ => 0 }
         searchOutcome := Except.ok
           [{ answer := "Our hours are 9am to 5pm.", doc_id := "Hours FAQ" }]
         genOutcome := Except.ok (some " ")
         useMockEmbedding := false } : QueryEnv).genOutcome = Except.ok (some t) ∧
      t ≠ "" ∧ jsTrim t = "" :=
  (c6_response_shape
    { intentCall := IntentCallOutcome.parsed (some "RAG") none none
      embedCall := { providerOutcome := Except.ok (some [1]), rand := fun _ => 0 }
      searchOutcome := Except.ok
        [{ answer := "Our hours are 9am to 5pm.", doc_id := "Hours FAQ" }]
      genOutcome := Except.ok (some " ")
      useMockEmbedding := false }
    "hello").2 (by decide)

/-! ## Claim C8 -/

/-- C8 counterexample: the order-status lookup key is neither trimmed nor
case-normalized — ids equal up to trimming or casing hash to different
statuses. -/
theorem c8_counterexample :
    jsTrim (jsToLowerCase " a ") = jsTrim (jsToLowerCase "a") ∧
    (orderStatusData " a ").status ≠ (orderStatusData "a").status ∧
    jsTrim (jsToLowerCase "A") = jsTrim (jsToLowerCase "a") ∧
    (orderStatusData "A").status ≠ (orderStatusData "a").status := by
  decide

/-- C8 amended: the product-info lookup derives its catalog key from the
lowercased then trimmed identifier (identifiers equal after normalisation
select the same key), while the router hands the raw classifier detail to
the order-status lookup, which hashes it without trimming or
case-normalisation, so ids equal up to whitespace or case can receive
different statuses. -/
theorem c8_lookup_key_normalization :
    (∀ p q : String, jsTrim (jsToLowerCase p) = jsTrim (jsToLowerCase q) →
      productKeyOf p = productKeyOf q) ∧
    (∀ env query d,
      env.intentCall = IntentCallOutcome.parsed (some "Order_Status") (some d) none →
      d ≠ "" → d ≠ "None" →
      processQuery env query = { answer := getOrderStatus d, intent := Intent.Order_Status }) ∧
    (orderStatusData " a ").status ≠ (orderStatusData "a").status ∧
    (orderStatusData "A").status ≠ (orderStatusData "a").status := by
  refine ⟨?_, ?_, by decide, by decide⟩
  · intro p q h
    simp only [productKeyOf, h]
  · intro env query d h hne hnn
    simp [processQuery, processQueryAux, determineIntent, h, extractDetails, jsOrElse,
      hne, hnn]

/-- Witness for C8: the router passes the untrimmed detail " a " straight to
the order-status lookup. -/
theorem c8_lookup_key_normalization_witness :
    processQuery
      { intentCall := IntentCallOutcome.parsed (some "Order_Status") (some " a ") none
        embedCall := { providerOutcome := Except.ok (some [1]), rand := fun _ => 0 }
        searchOutcome := Except.ok []
        genOutcome := Except.ok none
        useMockEmbedding := false }
      "order status please" =
      { answer := getOrderStatus " a ", intent := Intent.Order_Status } :=
  c8_lookup_key_normalization.2.1
    { intentCall := IntentCallOutcome.parsed (some "Order_Status") (some " a ") none
      embedCall := { providerOutcome := Except.ok (some [1]), rand := fun _ => 0 }
      searchOutcome := Except.ok []
      genOutcome := Except.ok none
      useMockEmbedding := false }
    "order status please" " a " rfl (by decide) (by decide)

/-! ## Claim C9 -/

/-- C9: the `/api/query` handler responds 400 with error
"Query parameter is required." exactly when the body\x27s query field is
absent, not a string, or the empty string; otherwise the query is processed
by the router and its response returned. -/
theorem c9_query_validation (env : QueryEnv) (v : JsValue) :
    (postApiQuery env v = HttpResponse.status400 "Query parameter is required." ↔
      (v = JsValue.undefined ∨ jsIsString v = false ∨ v = JsValue.str "")) ∧
    (∀ q : String, q ≠ "" →
      postApiQuery env (JsValue.str q) = HttpResponse.ok (processQuery env q)) := by
  constructor
  · cases v <;> simp [postApiQuery, jsTruthy, jsIsString, jsAsString]
  · intro q hq
    simp [postApiQuery, jsTruthy, jsIsString, jsAsString, hq]

/-- Witness for C9: a nonempty string query is processed. -/
theorem c9_query_validation_witness :
    postApiQuery
      { intentCall := IntentCallOutcome.parsed (some "RAG") none none
        embedCall := { providerOutcome := Except.ok (some [1]), rand := fun _ => 0 }
        searchOutcome := Except.ok []
        genOutcome := Except.ok none
        useMockEmbedding := false }
      (JsValue.str "hi") =
      HttpResponse.ok (processQuery
        { intentCall := IntentCallOutcome.parsed (some "RAG") none none
          embedCall := { providerOutcome := Except.ok (some [1]), rand := fun _ => 0 }
          searchOutcome := Except.ok []
          genOutcome := Except.ok none
          useMockEmbedding := false }
        "hi") :=
  (c9_query_validation
    { intentCall := IntentCallOutcome.parsed (some "RAG") none none
      embedCall := { providerOutcome := Except.ok (some [1]), rand := fun _ => 0 }
      searchOutcome := Except.ok []
      genOutcome := Except.ok none
      useMockEmbedding := false }
    (JsValue.str "hi")).2 "hi" (by decide)

/-! ## Claim C10 -/

set_option maxRecDepth 4000 in
/-- C10: whenever the lowercased, trimmed form of the product identifier is
empty (for instance a whitespace-only identifier), `getProductInfo` returns
the Apex Pro Suite detail string, because the bidirectional substring match
`key.includes(normalizedName)` accepts the empty string against the first
catalog key "pro suite". -/
theorem c10_blank_identifier_matches_pro_suite (productName : String)
    (h : jsTrim (jsToLowerCase productName) = "") :
    getProductInfo productName =
      "Apex Pro Suite details: The Apex Pro Suite is our premium offering, featuring real-time data analytics, unlimited cloud storage, and priority 24/7 technical support. It is currently available for purchase with a 15% introductory discount. Current Availability: In Stock" := by
  simp only [getProductInfo, h]
  rfl

/-- Witness for C10 at the whitespace-only identifier. -/
theorem c10_blank_identifier_matches_pro_suite_witness :
    getProductInfo "   " =
      "Apex Pro Suite details: The Apex Pro Suite is our premium offering, featuring real-time data analytics, unlimited cloud storage, and priority 24/7 technical support. It is currently available for purchase with a 15% introductory discount. Current Availability: In Stock" :=
  c10_blank_identifier_matches_pro_suite "   " (by decide)

end VoiceCare
